import Mathlib

/-!
Verification of the PSI data-collection core (evaluating-psi repository).

The Python sources are embedded shallowly: every numeric channel value is a
rational number, each stateful widget method becomes a pure state-transition
function, and the Qt signal `stimulus_signal.emit()` is modelled by an explicit
counter of emissions in the state.  Definition names follow the Python names.
-/

namespace PSI

/-- Z-offset of the force platform, in meters (`protocol_widget.py`, `ZOFF = -0.040934`). -/
def ZOFF : ℚ := -(40934 / 1000000)

/-- Minimum vertical force, in Newtons (`consts.py`, `MINIMUM_VERTICAL_FORCE = 10`). -/
def MINIMUM_VERTICAL_FORCE : ℚ := 10

/-- One raw sample read from the DAQ: the eight analog channels, in the fixed
channel order of `consts.py` (`FX FY FZ MX MY MZ EMG_1 EMG_2`). -/
structure RawSample where
  fx : ℚ
  fy : ℚ
  fz : ℚ
  mx : ℚ
  my : ℚ
  mz : ℚ
  emg1 : ℚ
  emg2 : ℚ
deriving DecidableEq

/-- A stored row of `incoming_data_storage`: `np.append(data, stim)` appends the
stimulus flag to the eight raw channels. -/
structure StoredSample where
  raw : RawSample
  stim : ℚ
deriving DecidableEq

/-- `protocol_widget.py`, lines 76-101 (identical copy in `plot_widget.py`,
lines 52-77): the center-of-pressure computation.  The Python function divides
unconditionally; there is no guard on `fz` and no invalid sentinel. -/
def calculate_center_of_pressure (fx fy fz mx my : ℚ) : ℚ × ℚ :=
  ((-1) * ((my + (ZOFF * fx)) / fz), (mx - (ZOFF * fy)) / fz)

/-- Modelled from the spec (section 4.1), for comparison with the code:
`computeCoP` is said to return `Invalid` whenever `Fz <= MINIMUM_VERTICAL_FORCE`
and the quotient formulas otherwise.  `none` plays the role of `Invalid`. -/
def computeCoP_spec (fx fy fz mx my : ℚ) : Option (ℚ × ℚ) :=
  if fz ≤ MINIMUM_VERTICAL_FORCE then none
  else some ((-1) * ((my + (ZOFF * fx)) / fz), (mx - (ZOFF * fy)) / fz)

end PSI

namespace PSI

/-- C1 counterexample: at `Fx = 0, Fy = 0, Fz = 5, Mx = 0, My = 1` the vertical
force is below `MINIMUM_VERTICAL_FORCE = 10`, so the claimed guard would demand
the `Invalid` sentinel; the code instead performs the division and returns
`(-1/5, 0)`. -/
theorem C1_counterexample :
    computeCoP_spec 0 0 5 0 1 = none ∧
    calculate_center_of_pressure 0 0 5 0 1 = (-(1 / 5), 0) := by
  constructor
  · norm_num [computeCoP_spec, MINIMUM_VERTICAL_FORCE]
  · norm_num [calculate_center_of_pressure, ZOFF]

/-- C1 (amended): for every sample, the CoP computation returns
`CoPx = -(My + zOffset*Fx)/Fz` and `CoPy = (Mx - zOffset*Fy)/Fz` with
`zOffset = -0.040934`, whatever the value of `Fz`; no guard is applied and no
`Invalid` sentinel exists.  For `Fz > MINIMUM_VERTICAL_FORCE` this agrees with
the spec's `computeCoP`. -/
theorem C1_cop_formula (fx fy fz mx my : ℚ) :
    calculate_center_of_pressure fx fy fz mx my =
      (-((my + (-(40934 / 1000000)) * fx) / fz), (mx - (-(40934 / 1000000)) * fy) / fz) ∧
    (MINIMUM_VERTICAL_FORCE < fz →
      computeCoP_spec fx fy fz mx my = some (calculate_center_of_pressure fx fy fz mx my)) := by
  constructor
  · simp [calculate_center_of_pressure, ZOFF]
  · intro h
    simp [computeCoP_spec, calculate_center_of_pressure, not_le.mpr h]

/-- C1 witness, the spec's own example: `Fx = 10, Fy = 0, Fz = 100, Mx = 0,
My = 0` yields `CoPx = 0.0040934, CoPy = 0`. -/
theorem C1_cop_formula_witness :
    calculate_center_of_pressure 10 0 100 0 0 = (40934 / 10000000, 0) ∧
    computeCoP_spec 10 0 100 0 0 = some (calculate_center_of_pressure 10 0 100 0 0) := by
  constructor
  · rw [(C1_cop_formula 10 0 100 0 0).1]
    norm_num
  · exact (C1_cop_formula 10 0 100 0 0).2 (by norm_num [MINIMUM_VERTICAL_FORCE])

end PSI

namespace PSI

/-- The fields of `ProtocolWidget` that a standing trial reads or writes:
`incoming_data_storage`, the stimulus-paradigm selection, and an explicit
counter of `stimulus_signal.emit()` calls. -/
structure StandingState where
  incoming_data_storage : List StoredSample
  stimCount : ℕ
  stimulus_enabled : Bool
  stimulator_setup : String
deriving DecidableEq

/-- `protocol_widget.py`, lines 942-958 (`receive_standing_trial_data`): when
the number of already-stored rows is divisible by 10,000 the stimulus signal is
emitted and the sample is stored with flag 1, otherwise it is stored with
flag 0.  The stimulus-enabled flag and the stimulator setup are never read. -/
def receive_standing_trial_data (s : StandingState) (data : RawSample) : StandingState :=
  if s.incoming_data_storage.length % 10000 = 0 then
    { s with incoming_data_storage := s.incoming_data_storage ++ [⟨data, 1⟩],
             stimCount := s.stimCount + 1 }
  else
    { s with incoming_data_storage := s.incoming_data_storage ++ [⟨data, 0⟩] }

/-- `protocol_widget.py`, lines 846-858 (`_no_stimulus_btn_toggled`): checking
the "None" radio button records the setup as "None" and disables the stimulus. -/
def no_stimulus_btn_toggled (checked : Bool) (s : StandingState) : StandingState :=
  if checked then { s with stimulator_setup := "None", stimulus_enabled := false } else s

/-- A whole standing-trial body: the samples arrive one at a time. -/
def runStandingTrial (s : StandingState) (ds : List RawSample) : StandingState :=
  ds.foldl receive_standing_trial_data s

/-- The widget state at the start of a standing-trial body:
`_standing_trial` clears `incoming_data_storage` before connecting. -/
def standingInit (enabled : Bool) (setup : String) : StandingState :=
  { incoming_data_storage := [], stimCount := 0,
    stimulus_enabled := enabled, stimulator_setup := setup }

/-- Number of indices in `[L, L + n)` divisible by 10,000. -/
def stimTicks : ℕ → ℕ → ℕ
  | _, 0 => 0
  | L, n + 1 => (if L % 10000 = 0 then 1 else 0) + stimTicks (L + 1) n

/-- The rows a standing trial stores, when `L` rows are already stored. -/
def standingTags (L : ℕ) : List RawSample → List StoredSample
  | [] => []
  | d :: ds => ⟨d, if L % 10000 = 0 then 1 else 0⟩ :: standingTags (L + 1) ds

lemma receive_standing_stimCount (s : StandingState) (d : RawSample) :
    (receive_standing_trial_data s d).stimCount =
      s.stimCount + (if s.incoming_data_storage.length % 10000 = 0 then 1 else 0) := by
  unfold receive_standing_trial_data
  split <;> simp

lemma receive_standing_storage (s : StandingState) (d : RawSample) :
    (receive_standing_trial_data s d).incoming_data_storage =
      s.incoming_data_storage ++
        [⟨d, if s.incoming_data_storage.length % 10000 = 0 then 1 else 0⟩] := by
  unfold receive_standing_trial_data
  split <;> simp_all

lemma runStandingTrial_stimCount (ds : List RawSample) (s : StandingState) :
    (runStandingTrial s ds).stimCount =
      s.stimCount + stimTicks s.incoming_data_storage.length ds.length := by
  induction ds generalizing s with
  | nil => simp [runStandingTrial, stimTicks]
  | cons d ds ih =>
    have hlen : (receive_standing_trial_data s d).incoming_data_storage.length =
        s.incoming_data_storage.length + 1 := by
      rw [receive_standing_storage]; simp
    have hrun : runStandingTrial s (d :: ds) =
        runStandingTrial (receive_standing_trial_data s d) ds := rfl
    rw [hrun, ih, hlen, receive_standing_stimCount]
    simp [stimTicks]
    omega

lemma stimTicks_closed (n L : ℕ) :
    stimTicks L n = (L + n + 9999) / 10000 - (L + 9999) / 10000 := by
  induction n generalizing L with
  | zero => simp [stimTicks]
  | succ n ih =>
    have h := ih (L + 1)
    unfold stimTicks
    rw [h]
    split <;> omega

lemma stimTicks_zero_closed (n : ℕ) : stimTicks 0 n = (n + 9999) / 10000 := by
  rw [stimTicks_closed]; omega

lemma runStandingTrial_storage (ds : List RawSample) (s : StandingState) :
    (runStandingTrial s ds).incoming_data_storage =
      s.incoming_data_storage ++ standingTags s.incoming_data_storage.length ds := by
  induction ds generalizing s with
  | nil => simp [runStandingTrial, standingTags]
  | cons d ds ih =>
    have hrun : runStandingTrial s (d :: ds) =
        runStandingTrial (receive_standing_trial_data s d) ds := rfl
    rw [hrun, ih, receive_standing_storage]
    simp [standingTags]

lemma standingTags_get? (ds : List RawSample) (L j : ℕ) :
    (standingTags L ds).get? j =
      (ds.get? j).map fun d => ⟨d, if (L + j) % 10000 = 0 then 1 else 0⟩ := by
  induction ds generalizing L j with
  | nil => simp [standingTags]
  | cons d ds ih =>
    cases j with
    | zero => simp [standingTags]
    | succ j =>
      simp only [standingTags, List.get?_cons_succ, ih ds.length]
      rw [ih]
      have : L + (j + 1) = (L + 1) + j := by omega
      rw [this]

end PSI

namespace PSI

/-- A concrete sample used by witnesses and counterexamples. -/
def sample0 : RawSample := ⟨1, 2, 3, 4, 5, 6, 7, 8⟩

/-- C2 counterexample: a standing-trial body of 95,000 samples fires 10
stimuli, not `floor(95000 / 10000) = 9`, because the very first body sample
(0 rows stored, and `0 % 10000 = 0`) already fires. -/
theorem C2_counterexample :
    (runStandingTrial (standingInit false "None") (List.replicate 95000 sample0)).stimCount = 10 ∧
    (runStandingTrial (standingInit false "None") (List.replicate 95000 sample0)).stimCount ≠ 9 := by
  have h := runStandingTrial_stimCount (List.replicate 95000 sample0) (standingInit false "None")
  rw [show (standingInit false "None").incoming_data_storage.length = 0 from rfl,
      show (standingInit false "None").stimCount = 0 from rfl,
      List.length_replicate, stimTicks_zero_closed] at h
  rw [h]
  omega

/-- C2 (amended): for a standing-trial body of `D` samples with interval
`I = 10000`, exactly `floor((D + I - 1) / I)` stimuli fire — 10 with the
default `D = 95000`, because the first body sample (stored count 0) also
fires; the count never exceeds the maximum of 10 whenever `D <= 95000`; a
stored row is tagged `Stim = 1` exactly when its index is divisible by
10,000, and no stimulus fires outside the `D` processed samples. -/
theorem C2_standing_trial_stimuli (enabled : Bool) (setup : String) (ds : List RawSample) :
    (runStandingTrial (standingInit enabled setup) ds).stimCount = (ds.length + 9999) / 10000 ∧
    (ds.length ≤ 95000 → (runStandingTrial (standingInit enabled setup) ds).stimCount ≤ 10) ∧
    (∀ j d', (runStandingTrial (standingInit enabled setup) ds).incoming_data_storage.get? j =
        some d' → d'.stim = if j % 10000 = 0 then 1 else 0) := by
  have hc := runStandingTrial_stimCount ds (standingInit enabled setup)
  rw [show (standingInit enabled setup).incoming_data_storage.length = 0 from rfl,
      show (standingInit enabled setup).stimCount = 0 from rfl,
      stimTicks_zero_closed, Nat.zero_add] at hc
  refine ⟨hc, ?_, ?_⟩
  · intro hlen
    rw [hc]
    omega
  · intro j d' hj
    have hs := runStandingTrial_storage ds (standingInit enabled setup)
    rw [show (standingInit enabled setup).incoming_data_storage = ([] : List StoredSample)
          from rfl] at hs
    rw [List.nil_append, List.length_nil] at hs
    rw [hs, standingTags_get?] at hj
    cases hd : ds.get? j with
    | none => rw [hd] at hj; simp at hj
    | some d =>
      rw [hd] at hj
      simp only [Option.map_some'] at hj
      have : d' = ⟨d, if (0 + j) % 10000 = 0 then 1 else 0⟩ := by
        exact (Option.some_injective _ hj).symm
      rw [this]
      simp

/-- C2 witness: a one-sample body fires exactly `(1 + 9999) / 10000 = 1`
stimulus, within the bound, and its row is tagged `Stim = 1`. -/
theorem C2_standing_trial_stimuli_witness :
    (runStandingTrial (standingInit false "None") [sample0]).stimCount = (1 + 9999) / 10000 ∧
    (runStandingTrial (standingInit false "None") [sample0]).stimCount ≤ 10 ∧
    (⟨sample0, 1⟩ : StoredSample).stim = if 0 % 10000 = 0 then 1 else 0 := by
  obtain ⟨h1, h2, h3⟩ := C2_standing_trial_stimuli false "None" [sample0]
  refine ⟨h1, h2 (by norm_num), h3 0 ⟨sample0, 1⟩ ?_⟩
  rfl

/-- C10: during a standing-trial body a stimulus is emitted exactly on those
samples for which the stored-row count is divisible by 10,000 — in particular
on the very first body sample — and the emission does not depend on the
stimulus-enabled flag or the stimulator-setup selection; it still occurs after
selecting the "None" stimulator setup. -/
theorem C10_standing_stimulus_unconditional (s : StandingState) (d : RawSample) :
    ((receive_standing_trial_data s d).stimCount = s.stimCount + 1 ↔
      s.incoming_data_storage.length % 10000 = 0) ∧
    (s.incoming_data_storage.length % 10000 = 0 →
      (receive_standing_trial_data s d).incoming_data_storage =
        s.incoming_data_storage ++ [⟨d, 1⟩]) ∧
    (s.incoming_data_storage = [] →
      (receive_standing_trial_data s d).stimCount = s.stimCount + 1) ∧
    (∀ b setup,
      (receive_standing_trial_data
          { s with stimulus_enabled := b, stimulator_setup := setup } d).stimCount =
        (receive_standing_trial_data s d).stimCount ∧
      (receive_standing_trial_data
          { s with stimulus_enabled := b, stimulator_setup := setup } d).incoming_data_storage =
        (receive_standing_trial_data s d).incoming_data_storage) ∧
    ((receive_standing_trial_data (no_stimulus_btn_toggled true s) d).stimCount =
        s.stimCount + 1 ↔ s.incoming_data_storage.length % 10000 = 0) := by
  refine ⟨?_, ?_, ?_, ?_, ?_⟩
  · rw [receive_standing_stimCount]
    split <;> simp_all
  · intro h
    rw [receive_standing_storage]
    simp [h]
  · intro h
    rw [receive_standing_stimCount, h]
    simp
  · intro b setup
    constructor
    · rw [receive_standing_stimCount, receive_standing_stimCount]
    · rw [receive_standing_storage, receive_standing_storage]
  · rw [receive_standing_stimCount]
    simp only [no_stimulus_btn_toggled, if_pos rfl]
    split <;> simp_all

/-- C10 witness: with an empty storage (the first body sample), stimulator
setup "None" and stimulus disabled, the stimulus still fires. -/
theorem C10_standing_stimulus_unconditional_witness :
    (receive_standing_trial_data (standingInit false "None") sample0).incoming_data_storage =
      [] ++ [⟨sample0, 1⟩] ∧
    (receive_standing_trial_data (standingInit false "None") sample0).stimCount = 0 + 1 := by
  obtain ⟨h1, h2, h3, h4, h5⟩ :=
    C10_standing_stimulus_unconditional (standingInit false "None") sample0
  exact ⟨h2 (by rfl), h3 (by rfl)⟩

end PSI

namespace PSI

/-- The fields of `ProtocolWidget` that `receive_step_data` reads or writes.
`stimulus_enabled`, `_quiet_stance_force` and `threshold` are fixed for the
whole trial (the radio buttons are disabled while a trial runs), so they are
parameters of the transition rather than state. -/
structure StepState where
  incoming_data_storage : List StoredSample
  stimCount : ℕ
  APA_detected : Bool
deriving DecidableEq

/-- `protocol_widget.py`, lines 922-940 (`receive_step_data`): while the APA
latch is clear, a sample whose mediolateral force deviates from the
quiet-stance reference by more than `|threshold|` fires the stimulus (when
enabled), is tagged `Stim = 1`, and sets the latch; every other sample is
stored with `Stim = 0`. -/
def receive_step_data (stimulus_enabled : Bool) (quiet_stance_force threshold : ℚ)
    (s : StepState) (data : RawSample) : StepState :=
  if s.APA_detected = false then
    if |data.fx - quiet_stance_force| > |threshold| then
      if stimulus_enabled then
        { incoming_data_storage := s.incoming_data_storage ++ [⟨data, 1⟩],
          stimCount := s.stimCount + 1, APA_detected := true }
      else
        { incoming_data_storage := s.incoming_data_storage ++ [⟨data, 0⟩],
          stimCount := s.stimCount, APA_detected := true }
    else
      { s with incoming_data_storage := s.incoming_data_storage ++ [⟨data, 0⟩] }
  else
    { s with incoming_data_storage := s.incoming_data_storage ++ [⟨data, 0⟩] }

/-- A whole step-trial body, sample by sample. -/
def runStepTrial (stimulus_enabled : Bool) (quiet_stance_force threshold : ℚ)
    (s : StepState) (ds : List RawSample) : StepState :=
  ds.foldl (receive_step_data stimulus_enabled quiet_stance_force threshold) s

/-- Widget state at the start of a step-trial body: `_calculate_quiet_stance`
clears the storage and `APA_detected` is `False` (reset in
`_stop_trial_button_clicked` and at construction). -/
def stepInit : StepState :=
  { incoming_data_storage := [], stimCount := 0, APA_detected := false }

lemma receive_step_eq (e : Bool) (ref thr : ℚ) (s : StepState) (d : RawSample) :
    receive_step_data e ref thr s d =
      { incoming_data_storage := s.incoming_data_storage ++
          [⟨d, if s.APA_detected = false ∧ e = true ∧ |d.fx - ref| > |thr| then 1 else 0⟩],
        stimCount := s.stimCount +
          (if s.APA_detected = false ∧ e = true ∧ |d.fx - ref| > |thr| then 1 else 0),
        APA_detected := s.APA_detected || decide (|d.fx - ref| > |thr|) } := by
  unfold receive_step_data
  by_cases h1 : s.APA_detected = false
  · by_cases h2 : |d.fx - ref| > |thr|
    · by_cases h3 : e = true <;> simp [h1, h2, h3]
    · simp [h1, h2]
  · have h1' : s.APA_detected = true := by simpa using h1
    simp [h1']

/-- The rows a step trial stores, given the current value of the APA latch. -/
def stepTags (e : Bool) (ref thr : ℚ) (apa : Bool) : List RawSample → List StoredSample
  | [] => []
  | d :: ds =>
      ⟨d, if apa = false ∧ e = true ∧ |d.fx - ref| > |thr| then 1 else 0⟩ ::
        stepTags e ref thr (apa || decide (|d.fx - ref| > |thr|)) ds

lemma runStep_stimCount (e : Bool) (ref thr : ℚ) (ds : List RawSample) (s : StepState) :
    (runStepTrial e ref thr s ds).stimCount =
      s.stimCount + (if s.APA_detected = false ∧ e = true ∧
        (∃ d ∈ ds, |d.fx - ref| > |thr|) then 1 else 0) := by
  induction ds generalizing s with
  | nil => simp [runStepTrial]
  | cons d ds ih =>
    have hrun : runStepTrial e ref thr s (d :: ds) =
        runStepTrial e ref thr (receive_step_data e ref thr s d) ds := rfl
    rw [hrun, ih, receive_step_eq]
    by_cases h1 : s.APA_detected = false
    · by_cases h2 : |d.fx - ref| > |thr|
      · by_cases h3 : e = true <;> simp [h1, h2, h3]
      · simp [h1, h2]
    · have h1' : s.APA_detected = true := by simpa using h1
      simp [h1']

lemma runStep_apa (e : Bool) (ref thr : ℚ) (ds : List RawSample) (s : StepState) :
    (runStepTrial e ref thr s ds).APA_detected =
      (s.APA_detected || ds.any fun d => decide (|d.fx - ref| > |thr|)) := by
  induction ds generalizing s with
  | nil => simp [runStepTrial]
  | cons d ds ih =>
    have hrun : runStepTrial e ref thr s (d :: ds) =
        runStepTrial e ref thr (receive_step_data e ref thr s d) ds := rfl
    rw [hrun, ih, receive_step_eq]
    simp [Bool.or_assoc]

lemma runStep_storage (e : Bool) (ref thr : ℚ) (ds : List RawSample) (s : StepState) :
    (runStepTrial e ref thr s ds).incoming_data_storage =
      s.incoming_data_storage ++ stepTags e ref thr s.APA_detected ds := by
  induction ds generalizing s with
  | nil => simp [runStepTrial, stepTags]
  | cons d ds ih =>
    have hrun : runStepTrial e ref thr s (d :: ds) =
        runStepTrial e ref thr (receive_step_data e ref thr s d) ds := rfl
    rw [hrun, ih, receive_step_eq]
    simp [stepTags]

lemma stepTags_latched (e : Bool) (ref thr : ℚ) (ds : List RawSample) :
    stepTags e ref thr true ds = ds.map fun d => ⟨d, 0⟩ := by
  induction ds with
  | nil => simp [stepTags]
  | cons d ds ih => simp [stepTags, ih]

lemma stepTags_no_crossing (e : Bool) (ref thr : ℚ) (ds₁ : List RawSample)
    (rest : List RawSample) (h : ∀ x ∈ ds₁, ¬(|x.fx - ref| > |thr|)) :
    stepTags e ref thr false (ds₁ ++ rest) =
      (ds₁.map fun d => ⟨d, 0⟩) ++ stepTags e ref thr false rest := by
  induction ds₁ with
  | nil => simp
  | cons x ds₁ ih =>
    have hx : ¬(|x.fx - ref| > |thr|) := h x (by simp)
    have hfalse : (false || decide (|x.fx - ref| > |thr|)) = false := by simp [hx]
    rw [List.cons_append,
        show stepTags e ref thr false (x :: (ds₁ ++ rest)) =
          ⟨x, if false = false ∧ e = true ∧ |x.fx - ref| > |thr| then 1 else 0⟩ ::
            stepTags e ref thr (false || decide (|x.fx - ref| > |thr|)) (ds₁ ++ rest) from rfl,
        hfalse, ih fun y hy => h y (by simp [hy])]
    simp [hx]

end PSI

namespace PSI

/-- A concrete sample whose mediolateral force crosses the threshold used in
witnesses (`|5 - 0| > |1|`). -/
def sampleCross : RawSample := ⟨5, 2, 3, 4, 5, 6, 7, 8⟩

/-- C3: in a step trial at most one stimulus ever fires, and with the stimulus
enabled it fires exactly once, on the first sample whose mediolateral force
deviates from the quiet-stance reference by more than `|Threshold|`; that
sample is tagged `Stim = 1`, the APA latch is set, and every other sample of
the trial — including later threshold crossings — is tagged `Stim = 0` and
fires nothing. -/
theorem C3_step_trial_single_stimulus (e : Bool) (ref thr : ℚ) (ds : List RawSample) :
    (runStepTrial e ref thr stepInit ds).stimCount ≤ 1 ∧
    (∀ ds₁ d ds₂, ds = ds₁ ++ d :: ds₂ →
      (∀ x ∈ ds₁, ¬(|x.fx - ref| > |thr|)) → |d.fx - ref| > |thr| →
      (runStepTrial true ref thr stepInit ds).stimCount = 1 ∧
      (runStepTrial true ref thr stepInit ds).APA_detected = true ∧
      (runStepTrial true ref thr stepInit ds).incoming_data_storage =
        (ds₁.map fun x => (⟨x, 0⟩ : StoredSample)) ++
          ⟨d, 1⟩ :: (ds₂.map fun x => (⟨x, 0⟩ : StoredSample))) := by
  constructor
  · rw [runStep_stimCount, show stepInit.stimCount = 0 from rfl,
        show stepInit.APA_detected = false from rfl]
    split <;> omega
  · intro ds₁ d ds₂ hds hno hcross
    subst hds
    refine ⟨?_, ?_, ?_⟩
    · rw [runStep_stimCount, show stepInit.stimCount = 0 from rfl,
          show stepInit.APA_detected = false from rfl]
      rw [if_pos ⟨rfl, rfl, d, by simp, hcross⟩]
    · rw [runStep_apa, show stepInit.APA_detected = false from rfl]
      simp [hcross]
    · rw [runStep_storage, show stepInit.incoming_data_storage = ([] : List StoredSample)
            from rfl,
          show stepInit.APA_detected = false from rfl, List.nil_append,
          stepTags_no_crossing true ref thr ds₁ (d :: ds₂) hno,
          show stepTags true ref thr false (d :: ds₂) =
            ⟨d, if false = false ∧ true = true ∧ |d.fx - ref| > |thr| then 1 else 0⟩ ::
              stepTags true ref thr (false || decide (|d.fx - ref| > |thr|)) ds₂ from rfl]
      rw [if_pos ⟨rfl, rfl, hcross⟩,
          show (false || decide (|d.fx - ref| > |thr|)) = true by simp [hcross],
          stepTags_latched]

/-- C3 witness: the body `[sample0, sampleCross, sampleCross]` with reference 0
and threshold 1 crosses first at index 1; the stimulus fires exactly once, the
crossing row is tagged `Stim = 1`, and the second crossing at index 2 does not
re-trigger and is tagged `Stim = 0`. -/
theorem C3_step_trial_single_stimulus_witness :
    (runStepTrial true 0 1 stepInit [sample0, sampleCross, sampleCross]).stimCount ≤ 1 ∧
    (runStepTrial true 0 1 stepInit [sample0, sampleCross, sampleCross]).stimCount = 1 ∧
    (runStepTrial true 0 1 stepInit [sample0, sampleCross, sampleCross]).APA_detected = true ∧
    (runStepTrial true 0 1 stepInit [sample0, sampleCross, sampleCross]).incoming_data_storage =
      [⟨sample0, 0⟩, ⟨sampleCross, 1⟩, ⟨sampleCross, 0⟩] := by
  have habs0 : ¬(|sample0.fx - 0| > |(1 : ℚ)|) := by
    show ¬(|(1 : ℚ) - 0| > |(1 : ℚ)|)
    rw [show ((1 : ℚ) - 0) = 1 by norm_num, abs_one]
    norm_num
  have habs5 : |sampleCross.fx - 0| > |(1 : ℚ)| := by
    show |(5 : ℚ) - 0| > |(1 : ℚ)|
    rw [show ((5 : ℚ) - 0) = 5 by norm_num, abs_one,
        show |(5 : ℚ)| = 5 from abs_of_pos (by norm_num)]
    norm_num
  obtain ⟨h1, h2⟩ := C3_step_trial_single_stimulus true 0 1 [sample0, sampleCross, sampleCross]
  obtain ⟨ha, hb, hc⟩ := h2 [sample0] sampleCross [sampleCross] rfl
    (by intro x hx; rw [List.mem_singleton] at hx; subst hx; exact habs0) habs5
  refine ⟨h1, ha, hb, ?_⟩
  rw [hc]
  rfl

end PSI

namespace PSI

/-- `np.mean` over a Python list of numbers: sum divided by length. -/
def np_mean (l : List ℚ) : ℚ := l.sum / l.length

/-- The fields of `ProtocolWidget` that the baseline-calibration methods read
or write.  `baseline_data` keeps the dict values in insertion order;
`threshold_percentage` mirrors the threshold combobox text, which the
`currentTextChanged` wiring keeps synchronized with the field. -/
structure BaselineState where
  baseline_data : List ℚ
  baseline_trial_counter : ℕ
  threshold : Option ℚ
  threshold_percentage : ℤ
  incoming_data_storage : List StoredSample
deriving DecidableEq

/-- `protocol_widget.py`, lines 960-985 (`_set_APA_threshold`): always records
the percentage; when at least one baseline trial has been collected, sets
`threshold := percentage * mean(stored magnitudes) / 100` — the mean of the
signed stored values, with no absolute value taken. -/
def set_APA_threshold (percentage : ℤ) (s : BaselineState) : BaselineState :=
  { s with threshold_percentage := percentage,
           threshold :=
             if s.baseline_trial_counter ≠ 0 then
               some ((percentage : ℚ) * np_mean s.baseline_data / 100)
             else s.threshold }

/-- Modelled from the spec (section 3, "Threshold"), for comparison with the
code: `percentage * mean(|APA magnitudes|) / 100`, the mean taken over the
absolute values. -/
def threshold_spec_abs (percentage : ℤ) (baseline : List ℚ) : ℚ :=
  (percentage : ℚ) * np_mean (baseline.map fun b => |b|) / 100

/-- `graph_viewer.py`, lines 45-56 (`BaselineGraphDialog.__init__`): the
"Save Trial" button is removed — accepting is impossible — when either the
peak list or the valley list is empty. -/
def save_trial_allowed (peaks valleys : List ℕ) : Bool :=
  !(peaks.length == 0 || valleys.length == 0)

/-- `protocol_widget.py`, lines 695-735 (`_handle_baseline_trial`): on accept
(`result = 1`) the trial counter increments, the APA magnitude is read at
whichever of `peaks[0]` / `valleys[0]` is smaller, the magnitude is appended,
and the threshold is recomputed; otherwise nothing changes.  In every case
`incoming_data_storage` is cleared.  List indexing is total with default 0;
the accept path is reachable only when both index lists are non-empty
(`save_trial_allowed`), which the hypotheses of the claims reflect. -/
def handle_baseline_trial (result : ℤ) (corrected : List ℚ) (peaks valleys : List ℕ)
    (s : BaselineState) : BaselineState :=
  if result = 1 then
    let counter := s.baseline_trial_counter + 1
    let max_force_during_apa :=
      if peaks.headD 0 < valleys.headD 0 then corrected.getD (peaks.headD 0) 0
      else corrected.getD (valleys.headD 0) 0
    let s' := set_APA_threshold s.threshold_percentage
      { s with baseline_trial_counter := counter,
               baseline_data := s.baseline_data ++ [max_force_during_apa] }
    { s' with incoming_data_storage := [] }
  else
    { s with incoming_data_storage := [] }

/-- A baseline state holding the spec's example magnitudes `{20, 30}`. -/
def baselinePos : BaselineState := ⟨[20, 30], 2, none, 10, []⟩

/-- A baseline state holding magnitudes `{20, -30}` of mixed sign. -/
def baselineMixed : BaselineState := ⟨[20, -30], 2, none, 10, []⟩

/-- A baseline state holding the single negative magnitude `-20`. -/
def baselineNeg : BaselineState := ⟨[-20], 1, none, 10, []⟩

end PSI

namespace PSI

/-- C4 counterexample: for the stored magnitudes `{20, -30}` at percentage 10
the code computes `10 * mean(20, -30) / 100 = -1/2`, while the claimed formula
`10 * mean(|20|, |-30|) / 100` gives `5/2`; the two differ. -/
theorem C4_counterexample :
    (set_APA_threshold 10 baselineMixed).threshold = some (-(1 / 2)) ∧
    threshold_spec_abs 10 [20, -30] = 5 / 2 ∧
    (-(1 / 2) : ℚ) ≠ 5 / 2 := by
  refine ⟨?_, ?_, by norm_num⟩
  · norm_num [set_APA_threshold, baselineMixed, np_mean]
  · rw [threshold_spec_abs, show (([20, -30] : List ℚ).map fun b => |b|) = [|(20 : ℚ)|, |(-30 : ℚ)|]
          from rfl,
        show |(20 : ℚ)| = 20 from abs_of_pos (by norm_num),
        show |(-30 : ℚ)| = 30 by rw [abs_neg]; exact abs_of_pos (by norm_num)]
    norm_num [np_mean]

/-- C4 (amended): whenever the baseline set is non-empty, the derived threshold
equals `percentage * mean(APA magnitudes) / 100`, the mean taken over the
signed stored per-trial magnitudes (no absolute value); for the all-positive
example `{20, 30}` at percentage 10 this still yields 2.5. -/
theorem C4_threshold_formula (percentage : ℤ) (s : BaselineState)
    (h : s.baseline_trial_counter ≠ 0) :
    (set_APA_threshold percentage s).threshold =
      some ((percentage : ℚ) * (s.baseline_data.sum / s.baseline_data.length) / 100) := by
  simp [set_APA_threshold, np_mean, h]

/-- C4 witness: the spec's example `{20, 30}` at percentage 10 gives
threshold `5/2 = 2.5`. -/
theorem C4_threshold_formula_witness :
    baselinePos.baseline_trial_counter ≠ 0 ∧
    (set_APA_threshold 10 baselinePos).threshold = some (5 / 2) := by
  have h : baselinePos.baseline_trial_counter ≠ 0 := by norm_num [baselinePos]
  refine ⟨h, ?_⟩
  rw [C4_threshold_formula 10 baselinePos h]
  norm_num [baselinePos]

/-- C5 counterexample: for the fixed non-empty baseline set `{-20}` the
thresholds at percentages 5 and 10 are `-1` and `-2`: the percentage grew but
the threshold strictly decreased. -/
theorem C5_counterexample :
    (5 : ℤ) ≤ 10 ∧
    (set_APA_threshold 5 baselineNeg).threshold = some (-1) ∧
    (set_APA_threshold 10 baselineNeg).threshold = some (-2) ∧
    ¬((-1 : ℚ) ≤ -2) := by
  refine ⟨by norm_num, ?_, ?_, by norm_num⟩
  · norm_num [set_APA_threshold, baselineNeg, np_mean]
  · norm_num [set_APA_threshold, baselineNeg, np_mean]

/-- C5 (amended): for a fixed non-empty baseline set whose stored magnitudes
have non-negative sum (equivalently, non-negative mean), the derived threshold
is monotonically non-decreasing in the percentage; when the mean is negative
the monotonicity reverses. -/
theorem C5_threshold_monotone (s : BaselineState) (p1 p2 : ℤ) (t1 t2 : ℚ)
    (hc : s.baseline_trial_counter ≠ 0) (hsum : 0 ≤ s.baseline_data.sum)
    (hp : p1 ≤ p2)
    (h1 : (set_APA_threshold p1 s).threshold = some t1)
    (h2 : (set_APA_threshold p2 s).threshold = some t2) :
    t1 ≤ t2 := by
  simp only [set_APA_threshold, np_mean, if_pos hc, Option.some.injEq] at h1 h2
  have hm : 0 ≤ s.baseline_data.sum / (s.baseline_data.length : ℚ) :=
    div_nonneg hsum (by positivity)
  have hpq : (p1 : ℚ) ≤ (p2 : ℚ) := by exact_mod_cast hp
  have hmul := mul_le_mul_of_nonneg_right hpq hm
  rw [← h1, ← h2]
  linarith

/-- C5 witness: baseline `{20, 30}`, percentages `5 <= 10`, thresholds
`5/4 <= 5/2`. -/
theorem C5_threshold_monotone_witness :
    baselinePos.baseline_trial_counter ≠ 0 ∧
    (0 : ℚ) ≤ baselinePos.baseline_data.sum ∧
    (5 : ℤ) ≤ 10 ∧
    (set_APA_threshold 5 baselinePos).threshold = some (5 / 4) ∧
    (set_APA_threshold 10 baselinePos).threshold = some (5 / 2) ∧
    (5 / 4 : ℚ) ≤ 5 / 2 := by
  have ha : (set_APA_threshold 5 baselinePos).threshold = some (5 / 4) := by
    norm_num [set_APA_threshold, baselinePos, np_mean]
  have hb : (set_APA_threshold 10 baselinePos).threshold = some (5 / 2) := by
    norm_num [set_APA_threshold, baselinePos, np_mean]
  exact ⟨by norm_num [baselinePos], by norm_num [baselinePos], by norm_num, ha, hb,
    C5_threshold_monotone baselinePos 5 10 (5 / 4) (5 / 2) (by norm_num [baselinePos])
      (by norm_num [baselinePos]) (by norm_num) ha hb⟩

/-- C6: for every accepted baseline trial with non-empty peak and valley index
lists, the stored APA magnitude is the corrected mediolateral force at the
earlier of `peaks[0]` and `valleys[0]` (their minimum), appended to the
baseline set, and the trial counter increments. -/
theorem C6_apa_magnitude (s : BaselineState) (corrected : List ℚ) (p v : ℕ)
    (ps vs : List ℕ) :
    (handle_baseline_trial 1 corrected (p :: ps) (v :: vs) s).baseline_data =
      s.baseline_data ++ [corrected.getD (min p v) 0] ∧
    (handle_baseline_trial 1 corrected (p :: ps) (v :: vs) s).baseline_trial_counter =
      s.baseline_trial_counter + 1 := by
  unfold handle_baseline_trial
  rw [if_pos rfl]
  constructor
  · show s.baseline_data ++ [if p < v then corrected.getD p 0 else corrected.getD v 0] = _
    by_cases hpv : p < v
    · rw [if_pos hpv, min_eq_left (Nat.le_of_lt hpv)]
    · rw [if_neg hpv, min_eq_right (Nat.le_of_not_lt hpv)]
  · rfl

/-- C7: a baseline capture with empty peak and valley lists cannot be accepted
(the save button is removed), and a rejected capture (`result` is not 1)
leaves the baseline set, the trial counter and the threshold unchanged. -/
theorem C7_empty_capture_rejected (s : BaselineState) (corrected : List ℚ) (result : ℤ) :
    save_trial_allowed [] [] = false ∧
    (result ≠ 1 →
      (handle_baseline_trial result corrected [] [] s).baseline_data = s.baseline_data ∧
      (handle_baseline_trial result corrected [] [] s).baseline_trial_counter =
        s.baseline_trial_counter ∧
      (handle_baseline_trial result corrected [] [] s).threshold = s.threshold) := by
  refine ⟨rfl, fun hr => ?_⟩
  unfold handle_baseline_trial
  rw [if_neg hr]
  exact ⟨rfl, rfl, rfl⟩

/-- C7 witness: rejecting (`result = 0`) an empty capture over the `{20, 30}`
baseline state changes none of the three fields. -/
theorem C7_empty_capture_rejected_witness :
    save_trial_allowed [] [] = false ∧
    (handle_baseline_trial 0 [] [] [] baselinePos).baseline_data =
      baselinePos.baseline_data ∧
    (handle_baseline_trial 0 [] [] [] baselinePos).baseline_trial_counter =
      baselinePos.baseline_trial_counter ∧
    (handle_baseline_trial 0 [] [] [] baselinePos).threshold = baselinePos.threshold := by
  obtain ⟨hs, hr⟩ := C7_empty_capture_rejected baselinePos [] 0
  obtain ⟨h1, h2, h3⟩ := hr (by norm_num)
  exact ⟨hs, h1, h2, h3⟩

end PSI

namespace PSI

/-- `protocol_widget.py`, lines 104-170 (`create_csv_export`): the data-row
portion of the export.  The nine key/value metadata rows and the header row
hold strings and precede these rows; each data row lists the eight raw
channels, the CoP recomputed from them, and the stimulus flag, for the
quiet-stance rows followed by the trial-body rows. -/
def create_csv_export_rows (step_data quiet_stance_data : List StoredSample) : List (List ℚ) :=
  (quiet_stance_data ++ step_data).map fun row =>
    [row.raw.fx, row.raw.fy, row.raw.fz, row.raw.mx, row.raw.my, row.raw.mz,
     row.raw.emg1, row.raw.emg2,
     (calculate_center_of_pressure row.raw.fx row.raw.fy row.raw.fz row.raw.mx row.raw.my).1,
     (calculate_center_of_pressure row.raw.fx row.raw.fy row.raw.fz row.raw.mx row.raw.my).2,
     row.stim]

/-- The exported data row of `sample0` with stimulus flag 0. -/
def exportRow0 : List ℚ :=
  [sample0.fx, sample0.fy, sample0.fz, sample0.mx, sample0.my, sample0.mz,
   sample0.emg1, sample0.emg2,
   (calculate_center_of_pressure sample0.fx sample0.fy sample0.fz sample0.mx sample0.my).1,
   (calculate_center_of_pressure sample0.fx sample0.fy sample0.fz sample0.mx sample0.my).2, 0]

/-- C8: the exported data rows are the quiet-stance rows in order followed by
the body rows in order, every row keeps the raw channels and has 11 columns,
and recomputing CoP from the exported raw columns (0-4) reproduces the
exported CoP columns (8-9) exactly. -/
theorem C8_export_roundtrip (step_data quiet_stance_data : List StoredSample) :
    create_csv_export_rows step_data quiet_stance_data =
      create_csv_export_rows [] quiet_stance_data ++ create_csv_export_rows step_data [] ∧
    ∀ r ∈ create_csv_export_rows step_data quiet_stance_data,
      calculate_center_of_pressure (r.getD 0 0) (r.getD 1 0) (r.getD 2 0) (r.getD 3 0)
        (r.getD 4 0) = (r.getD 8 0, r.getD 9 0) ∧ r.length = 11 := by
  constructor
  · simp [create_csv_export_rows]
  · intro r hr
    obtain ⟨row, hm, hrw⟩ := List.mem_map.mp hr
    rw [← hrw]
    exact ⟨rfl, rfl⟩

/-- C8 witness: a one-row quiet-stance segment followed by a one-row body
segment exports in that order, and the `sample0` row round-trips. -/
theorem C8_export_roundtrip_witness :
    create_csv_export_rows [⟨sampleCross, 1⟩] [⟨sample0, 0⟩] =
      create_csv_export_rows [] [⟨sample0, 0⟩] ++
        create_csv_export_rows [⟨sampleCross, 1⟩] [] ∧
    calculate_center_of_pressure (exportRow0.getD 0 0) (exportRow0.getD 1 0)
      (exportRow0.getD 2 0) (exportRow0.getD 3 0) (exportRow0.getD 4 0) =
      (exportRow0.getD 8 0, exportRow0.getD 9 0) ∧
    exportRow0.length = 11 := by
  obtain ⟨h1, h2⟩ := C8_export_roundtrip [⟨sampleCross, 1⟩] [⟨sample0, 0⟩]
  have hm : exportRow0 ∈ create_csv_export_rows [⟨sampleCross, 1⟩] [⟨sample0, 0⟩] := by
    have he : create_csv_export_rows [⟨sampleCross, 1⟩] [⟨sample0, 0⟩] =
        exportRow0 :: create_csv_export_rows [⟨sampleCross, 1⟩] [] := rfl
    rw [he]
    exact List.mem_cons_self _ _
  obtain ⟨hcop, hlen⟩ := h2 exportRow0 hm
  exact ⟨h1, hcop, hlen⟩

end PSI

namespace PSI

/-- The state flags of the `DAQ` object (`USB6210.py`): whether tasks exist
and whether the reader task is running. -/
structure DAQState where
  are_tasks : Bool
  is_running : Bool
deriving DecidableEq

/-- The flags after `DAQ.__init__`: no tasks, not running. -/
def DAQ.init : DAQState := ⟨false, false⟩

/-- `USB6210.py`, lines 52-96 (`DAQ.create_tasks`): raises
`ValueError("Task is already running.")` when tasks already exist; the raise
happens before any assignment, so a failing call mutates nothing.  On success
the tasks are created and `are_tasks` is set. -/
def DAQ.create_tasks (s : DAQState) : Except String DAQState :=
  if s.are_tasks then Except.error "Task is already running."
  else Except.ok { s with are_tasks := true }

/-- `USB6210.py`, lines 98-107 (`DAQ.start`): starts the reader task when one
exists and is not yet running. -/
def DAQ.start (s : DAQState) : Except String DAQState :=
  if s.are_tasks then
    if s.is_running then Except.error "The task has already been started."
    else Except.ok { s with is_running := true }
  else Except.error "No task has been defined. Use create_task to initiate one."

/-- C9: after a successful task creation, a second creation call without an
intervening close fails fast with the already-active error and, being raised
before any assignment, changes no flag; the first task remains usable — a
subsequent `start` on the same state still succeeds. -/
theorem C9_create_tasks_fails_fast (s0 s : DAQState)
    (h : DAQ.create_tasks s0 = Except.ok s) :
    DAQ.create_tasks s = Except.error "Task is already running." ∧
    (s.is_running = false → DAQ.start s = Except.ok { s with is_running := true }) := by
  have ht : s.are_tasks = true := by
    unfold DAQ.create_tasks at h
    by_cases h0 : s0.are_tasks = true
    · rw [if_pos h0] at h
      exact absurd h (by simp)
    · rw [if_neg h0] at h
      rw [← (Except.ok.injEq _ _).mp h]
  constructor
  · simp [DAQ.create_tasks, ht]
  · intro hr
    simp [DAQ.start, ht, hr]

/-- C9 witness: from the freshly initialized device, `create_tasks` succeeds
once, fails on the second call with the already-active error, and the first
task still starts. -/
theorem C9_create_tasks_fails_fast_witness :
    DAQ.create_tasks DAQ.init = Except.ok ⟨true, false⟩ ∧
    DAQ.create_tasks ⟨true, false⟩ = Except.error "Task is already running." ∧
    DAQ.start ⟨true, false⟩ = Except.ok ⟨true, true⟩ := by
  have h : DAQ.create_tasks DAQ.init = Except.ok ⟨true, false⟩ := rfl
  obtain ⟨h1, h2⟩ := C9_create_tasks_fails_fast DAQ.init ⟨true, false⟩ h
  exact ⟨h, h1, h2 rfl⟩

end PSI
